import Mathlib

/-!
Verification of the Dumu Apparels conversational-commerce bot.

This file shallowly embeds the behavioural core of the repository:
the webhook event dispatcher (src/services/chat_service.py,
process_webhook_event and its helpers), the PesaPal IPN reconciliation
handler (src/services/pesapal_ipn.py, process_pesapal_ipn) and the
webhook verification endpoint (src/main.py, verify_webhook).

Modelling conventions:
- Python strings are Lean String; the Python primitives used by the code
  (strip, lower, upper, replace, startswith, int(), str(), split, falsiness)
  are given explicit executable models named with a py- name.
  Unicode-only behaviour (non-ASCII digits, non-ASCII whitespace and case
  mapping) is not modelled: every string the repository matches against is
  ASCII.
- The database is an explicit record of lists (users, products, orders);
  SQLAlchemy commits become functional updates keyed by primary key.
- External I/O (message sends, STK push, card-gateway calls, ConversationLog
  inserts) is recorded in an ordered trace of actions; results of external
  calls that the code branches on (send success, presence of a payment link,
  the PesaPal status document) are supplied by an environment record.
- Monetary amounts (DECIMAL(10,2) columns and Python float conversions) are
  modelled as Rat; the float(...) conversions in the code are modelled as
  the identity, and display-only price formatting is approximated (no claim
  depends on a formatted price string).
-/

/-! ## Python string primitives -/

/-- The whitespace characters stripped by Python str.strip (ASCII subset). -/
def isPySpace (c : Char) : Bool :=
  c = ' ' || c = '\t' || c = '\n' || c = '\r' || c = '\x0b' || c = '\x0c'

/-- Python str.strip on a character list. -/
def stripL (l : List Char) : List Char :=
  ((l.dropWhile isPySpace).reverse.dropWhile isPySpace).reverse

/-- Python str.strip. -/
def pyStrip (s : String) : String := ⟨stripL s.data⟩

/-- Python str.lower (ASCII). -/
def pyLower (s : String) : String := ⟨s.data.map Char.toLower⟩

/-- Python str.upper (ASCII). -/
def pyUpper (s : String) : String := ⟨s.data.map Char.toUpper⟩

/-- Python str.startswith. -/
def pyStartsWith (s pat : String) : Bool := pat.data.isPrefixOf s.data

/-- One step list of Python str.replace: fuel-indexed left-to-right
non-overlapping replacement of every occurrence of a nonempty pattern. -/
def pyReplaceGo (pat rep : List Char) : Nat → List Char → List Char
  | _, [] => []
  | 0, l => l
  | fuel + 1, c :: rest =>
    if pat.isPrefixOf (c :: rest) then
      rep ++ pyReplaceGo pat rep fuel (rest.drop (pat.length - 1))
    else
      c :: pyReplaceGo pat rep fuel rest

/-- Python str.replace (replaces every occurrence; the repository never
calls it with an empty pattern, which this model returns unchanged). -/
def pyReplace (s pat rep : String) : String :=
  if pat.data = [] then s
  else ⟨pyReplaceGo pat.data rep.data s.data.length s.data⟩

/-- Digit-and-underscore tail of a Python integer literal: after the first
digit, underscores may appear only singly and only between digits. -/
def digitsVal : List Char → Nat → Option Nat
  | [], acc => some acc
  | c :: rest, acc =>
    if c = '_' then
      match rest with
      | [] => none
      | d :: rest2 =>
        if d.isDigit then digitsVal rest2 (acc * 10 + (d.toNat - 48)) else none
    else if c.isDigit then digitsVal rest (acc * 10 + (c.toNat - 48))
    else none

/-- Unsigned part of Python int(): at least one digit, then digitsVal. -/
def parseUnsignedDigits : List Char → Option Nat
  | [] => none
  | c :: rest => if c.isDigit then digitsVal rest (c.toNat - 48) else none

/-- Signed part of Python int() after whitespace stripping: one optional
sign, then decimal digits with single underscores between digits. -/
def pyIntCore : List Char → Option Int
  | [] => none
  | c :: rest =>
    if c = '+' then (parseUnsignedDigits rest).map Int.ofNat
    else if c = '-' then (parseUnsignedDigits rest).map (fun m => -(m : Int))
    else (parseUnsignedDigits (c :: rest)).map Int.ofNat

/-- Python int() on a string: strips whitespace, allows one optional sign,
then decimal digits with single underscores between digits. -/
def pyInt (s : String) : Option Int := pyIntCore (stripL s.data)

/-- Decimal digit character for a value below ten. -/
def digitChar (d : Nat) : Char := Char.ofNat (48 + d)

/-- Reversed decimal digits of a natural number (fuel-indexed). -/
def natDigitsRev : Nat → Nat → List Char
  | 0, n => [digitChar n]
  | fuel + 1, n =>
    if n < 10 then [digitChar n]
    else digitChar (n % 10) :: natDigitsRev fuel (n / 10)

/-- Python str() of a natural number. -/
def pyStr (n : Nat) : String := ⟨(natDigitsRev n n).reverse⟩

/-- Python str() of an integer. -/
def pyStrI : Int → String
  | .ofNat n => pyStr n
  | .negSucc n => "-" ++ pyStr (n + 1)

/-- Python truthiness of an optional string (None and the empty string are
falsy). -/
def pyTruthyStr : Option String → Bool
  | none => false
  | some s => s ≠ ""

/-- Python truthiness of an optional integer field (None and 0 are falsy). -/
def pyTruthyNat : Option Nat → Bool
  | none => false
  | some n => n ≠ 0

/-- Python `a or default` for an optional string. -/
def pyOrStr (o : Option String) (dflt : String) : String :=
  match o with
  | some s => if s ≠ "" then s else dflt
  | none => dflt

/-- Python chained `a or b or ... or ""` over optional strings: the first
truthy value, else the empty string. -/
def firstTruthy : List (Option String) → String
  | [] => ""
  | o :: rest =>
    match o with
    | some s => if s ≠ "" then s else firstTruthy rest
    | none => firstTruthy rest

/-! ## Data model (src/models.py) -/

/-- Row of the users table (src/models.py User, plus the
pending_product_id column added by the alembic migration
6b7f2c1a9d2e_add_pending_product_id_to_users.py). -/
structure UserR where
  id : Nat
  instagram_id : String
  name : Option String
  phone_number : Option String
  pending_product_id : Option Nat
deriving Repr, DecidableEq

/-- Row of the products table (src/models.py Product). -/
structure ProductR where
  id : Nat
  name : String
  category : String
  price : Rat
  image_url : String
  sizes : List String
  is_active : Bool
deriving Repr, DecidableEq

/-- Row of the orders table (src/models.py Order). -/
structure OrderR where
  id : Nat
  user_id : Nat
  product_id : Nat
  amount : Rat
  status : String
  payment_provider : Option String
  transaction_ref : Option String
deriving Repr, DecidableEq

/-- Database state: the three tables the handlers read and write, plus the
autoincrement counters. ConversationLog rows are recorded in the action
trace rather than here, so that their ordering relative to outbound sends
is preserved. -/
structure DB where
  users : List UserR
  products : List ProductR
  orders : List OrderR
  next_user_id : Nat
  next_order_id : Nat
deriving Repr, DecidableEq

/-- First row matching a key, generic over the key function. -/
def findBy {α κ : Type} [DecidableEq κ] (key : α → κ) (l : List α) (k : κ) : Option α :=
  l.find? (fun x => key x = k)

/-- Replace every row whose key matches the key of the new row
(functional model of mutating a fetched ORM object and committing). -/
def updBy {α κ : Type} [DecidableEq κ] (key : α → κ) (l : List α) (a : α) : List α :=
  l.map (fun x => if key x = key a then a else x)

/-- SELECT User WHERE instagram_id = sid. -/
def findUser (db : DB) (sid : String) : Option UserR :=
  findBy UserR.instagram_id db.users sid

/-- SELECT User WHERE id = uid. -/
def findUserById (db : DB) (uid : Nat) : Option UserR :=
  findBy UserR.id db.users uid

/-- SELECT Product WHERE id = i, for a parsed (possibly negative) id. -/
def findProductI (db : DB) (i : Int) : Option ProductR :=
  findBy (fun p => (p.id : Int)) db.products i

/-- SELECT Product WHERE id = n. -/
def findProductN (db : DB) (n : Nat) : Option ProductR :=
  findBy ProductR.id db.products n

/-- SELECT Order WHERE id = i, for a parsed (possibly negative) id. -/
def findOrderI (db : DB) (i : Int) : Option OrderR :=
  findBy (fun o => (o.id : Int)) db.orders i

/-- Commit a mutated User row. -/
def updateUser (db : DB) (u : UserR) : DB :=
  { db with users := updBy UserR.id db.users u }

/-- Commit a mutated Order row (keyed by id, as an Int to match the parsed
lookups). -/
def updateOrder (db : DB) (o : OrderR) : DB :=
  { db with orders := updBy (fun x => ((x.id : Nat) : Int)) db.orders o }

/-! ## Action trace and environment -/

/-- Element of an Instagram generic-template carousel
(chat_service.get_product_carousel). The display subtitle (formatted price
and sizes) is not modelled; no claim depends on it. -/
structure CarouselElem where
  title : String
  image_url : String
  buyPayload : String
deriving Repr, DecidableEq

/-- Observable actions of one processing unit, in program order:
ConversationLog inserts and outbound I/O calls. -/
inductive Act where
  | log (userId : Nat) (message sender : String)
  | sendMessage (recipient text : String)
  | sendPaymentSelector (recipient : String) (productId : Nat)
  | sendPaymentLinkButton (recipient link : String) (amount : Rat) (productName : String)
  | sendCarousel (recipient : String) (elements : List CarouselElem)
  | sendWelcomeMenu (recipient : String)
  | stkPush (phone : String) (amount : Rat) (firstName lastName email reference : String)
  | cardLinkRequest (amount : Rat) (orderRef email customerName productName : String)
deriving Repr, DecidableEq

/-- Results of the external calls whose outcome the dispatcher branches on:
whether the messaging platform accepts a send, and the payment link (if any)
returned by the card gateway. Exceptions from external clients are not
modelled. -/
structure Env where
  sendOk : Bool
  paymentLink : Option String
deriving Repr, DecidableEq

/-- An outbound send to the messaging platform. -/
def isMsgSend : Act → Bool
  | .sendMessage _ _ => true
  | .sendPaymentSelector _ _ => true
  | .sendPaymentLinkButton _ _ _ _ => true
  | .sendCarousel _ _ => true
  | .sendWelcomeMenu _ => true
  | _ => false

/-- A ConversationLog insert with sender bot. -/
def isBotLog : Act → Bool
  | .log _ _ sender => sender = "bot"
  | _ => false

/-- A mobile-money charge-initiation call (KopoKopoService.initiate_stk_push). -/
def isStkPush : Act → Bool
  | .stkPush _ _ _ _ _ _ => true
  | _ => false

/-! ## Fixed message texts (src/services/chat_service.py) -/

/-- Generic apology sent from the postback exception handlers. -/
def errApologyText : String :=
  "Sorry, there was an error processing your request. Please try again."

/-- Unavailable-product notice in the postback handlers. -/
def itemUnavailableText : String :=
  "Sorry, this item is no longer available or out of stock."

/-- Prompt asking the user for an M-Pesa number. -/
def mpesaPromptText : String :=
  "Please reply with your M-Pesa number (e.g., 0712345678) to complete the payment."

/-- Confirmation that an STK push prompt was sent. -/
def promptSentText : String :=
  "I have sent a prompt to your phone! Please enter your PIN."

/-- Notice that a pending product became unavailable (text path). -/
def itemGoneText : String :=
  "Sorry, that item is no longer available. Please choose another item."

/-- Acknowledgement that a phone number was saved with nothing pending. -/
def thanksSavedText : String :=
  "Thanks! Your M-Pesa number has been saved. Tap M-Pesa again to pay."

/-- Re-prompt for a valid phone number (text path). -/
def validNumText : String :=
  "Please send a valid M-Pesa number like 0712345678."

/-- Apology when no card payment link could be generated. -/
def cardFailText : String :=
  "Sorry, we couldn\u0027t process your payment request at this time. Please try again later."

/-- Display-only approximation of the f-string price rendering
(KES {x:,.2f}); no claim depends on the exact rendering. -/
def formatKes (q : Rat) : String := "KES " ++ toString q

/-- Card-payment response text sent with the payment link button. -/
def cardResponseText (price : Rat) (productName : String) : String :=
  "Perfect! 💳\n\nComplete your payment of " ++ formatKes price ++ " for " ++
    productName ++ ".\n\nClick the button below to pay securely via Card (Visa/Mastercard)."

/-! ## Phone normalization (chat_service.normalize_kenyan_phone_to_e164) -/

/-- Core of KENYAN_MSISDN_LOCAL_RE: a literal 0, then 7 or 1, then exactly
eight decimal digits. -/
def kenyanCore : List Char → Bool
  | '0' :: c :: rest => (c = '7' || c = '1') && rest.length = 8 && rest.all Char.isDigit
  | _ => false

/-- re.match against the anchored pattern; the dollar anchor also matches
just before one trailing newline, as in Python re. -/
def kenyanMatch (s : String) : Bool :=
  kenyanCore s.data ||
    (match s.data.getLast? with
     | some '\n' => kenyanCore s.data.dropLast
     | _ => false)

/-- normalize_kenyan_phone_to_e164: strips, matches the local pattern and
rewrites the leading 0 to +254; a ValueError is modelled as none. -/
def normalize_kenyan_phone_to_e164 (local_msisdn : String) : Option String :=
  let msisdn := pyStrip local_msisdn
  if kenyanMatch msisdn then some ("+254" ++ ⟨msisdn.data.drop 1⟩) else none

/-! ## Customer identity derivation (PAY_MPESA_ and the text path) -/

/-- full_name = (user.name or "Instagram Customer").strip(). -/
def pyFullName (name : Option String) : String :=
  pyStrip (pyOrStr name "Instagram Customer")

/-- parts = [p for p in full_name.split(" ") if p]. -/
def nameParts (name : Option String) : List String :=
  ((pyFullName name).splitOn " ").filter (fun p => p ≠ "")

/-- first_name = parts[0] if parts else "Instagram". -/
def firstNameOf (name : Option String) : String :=
  (nameParts name).headD "Instagram"

/-- last_name = " ".join(parts[1:]) if len(parts) > 1 else "Customer". -/
def lastNameOf (name : Option String) : String :=
  if (nameParts name).length > 1 then String.intercalate " " (nameParts name).tail
  else "Customer"

/-- customer_email = f"instagram_{sender_id}@dumuapparels.local". -/
def customerEmail (sid : String) : String :=
  "instagram_" ++ sid ++ "@dumuapparels.local"

/-! ## Product carousel (chat_service.get_product_carousel) -/

/-- Query active products of a category (limit 10) and format carousel
elements, skipping products whose image URL is empty after stripping. -/
def get_product_carousel (category : String) (db : DB) : List CarouselElem :=
  (((db.products.filter (fun p => p.category = pyLower category && p.is_active)).take 10).filterMap
    (fun p =>
      if pyStrip p.image_url = "" then none
      else some ⟨p.name, pyStrip p.image_url, "BUY_" ++ pyStr p.id⟩))

/-- _handle_showroom_request: fetch the carousel and send it, or send the
fixed no-stock message. The exception fallback path is not modelled. -/
def handleShowroom (sid category : String) (userId : Nat) (db : DB) : DB × List Act :=
  let catL := pyStrip (pyLower category)
  let elements := get_product_carousel catL db
  if elements.isEmpty then
    let noStock := "Sorry, no " ++ catL ++ " items in stock right now."
    (db, [.log userId noStock "bot", .sendMessage sid noStock])
  else
    (db, [.log userId ("[CAROUSEL] Showing " ++ catL ++ " products (" ++
            pyStr elements.length ++ " items)") "bot",
          .sendCarousel sid elements])

/-! ## Postback handlers (process_webhook_event, postback branch) -/

/-- BUY_ postback (chat_service.py lines 621-677). A ValueError from int()
yields the fixed apology without a log entry. -/
def handleBuy (env : Env) (db : DB) (user : UserR) (sid payload : String) :
    DB × List Act :=
  match pyInt (pyStrip (pyReplace payload "BUY_" "")) with
  | none => (db, [.sendMessage sid errApologyText])
  | some pid =>
    match findProductI db pid with
    | none => (db, [.log user.id itemUnavailableText "bot",
                    .sendMessage sid itemUnavailableText])
    | some product =>
      if product.is_active then
        (db, [.log user.id ("[BUTTON CLICK] Buy Now - Item " ++ pyStrI pid) "bot",
              .sendPaymentSelector sid product.id] ++
             (if env.sendOk then [.log user.id "Payment selector displayed" "bot"] else []))
      else
        (db, [.log user.id itemUnavailableText "bot",
              .sendMessage sid itemUnavailableText])

/-- PAY_MPESA_ postback (chat_service.py lines 680-781). Persists the
pending product id, then either prompts for a phone number, re-prompts on
an invalid stored number, or initiates the STK push. -/
def handlePayMpesa (_env : Env) (db : DB) (user : UserR) (sid payload : String) :
    DB × List Act :=
  match pyInt (pyStrip (pyReplace payload "PAY_MPESA_" "")) with
  | none => (db, [.sendMessage sid errApologyText])
  | some pid =>
    match findProductI db pid with
    | none => (db, [.log user.id itemUnavailableText "bot",
                    .sendMessage sid itemUnavailableText])
    | some product =>
      if product.is_active then
        let selLog : Act :=
          .log user.id ("[BUTTON CLICK] Selected M-Pesa - Item " ++ pyStrI pid) "bot"
        -- user.pending_product_id = product_id; the parsed id equals the
        -- id of the product row the lookup returned
        let u1 : UserR := { user with pending_product_id := some product.id }
        let db1 := updateUser db u1
        if pyTruthyStr u1.phone_number = false then
          (db1, [selLog, .log user.id mpesaPromptText "bot",
                 .sendMessage sid mpesaPromptText])
        else
          match normalize_kenyan_phone_to_e164 (u1.phone_number.getD "") with
          | none =>
            let u2 : UserR := { u1 with phone_number := none }
            (updateUser db1 u2, [selLog, .sendMessage sid mpesaPromptText])
          | some e164 =>
            (db1, [selLog,
                   .stkPush e164 product.price (firstNameOf user.name)
                     (lastNameOf user.name) (customerEmail sid)
                     ("IG_" ++ sid ++ "_PRODUCT_" ++ pyStrI pid),
                   .log user.id promptSentText "bot",
                   .sendMessage sid promptSentText])
      else
        (db, [.log user.id itemUnavailableText "bot",
              .sendMessage sid itemUnavailableText])

/-- PAY_CARD_ postback (chat_service.py lines 784-900). Creates a pending
Order, requests a payment link, and on failure marks the Order failed. -/
def handlePayCard (env : Env) (db : DB) (user : UserR) (sid payload : String) :
    DB × List Act :=
  match pyInt (pyStrip (pyReplace payload "PAY_CARD_" "")) with
  | none => (db, [.sendMessage sid errApologyText])
  | some pid =>
    match findProductI db pid with
    | none => (db, [.log user.id itemUnavailableText "bot",
                    .sendMessage sid itemUnavailableText])
    | some product =>
      if product.is_active then
        let selLog : Act :=
          .log user.id ("[BUTTON CLICK] Selected Card - Item " ++ pyStrI pid) "bot"
        let order : OrderR :=
          { id := db.next_order_id, user_id := user.id, product_id := product.id,
            amount := product.price, status := "pending",
            payment_provider := some "pesapal", transaction_ref := none }
        let db1 : DB := { db with orders := db.orders ++ [order],
                                  next_order_id := db.next_order_id + 1 }
        let linkReq : Act :=
          .cardLinkRequest product.price ("ORDER_" ++ pyStr order.id)
            (customerEmail sid) (pyOrStr user.name ("Customer " ++ sid)) product.name
        match env.paymentLink with
        | some link =>
          (db1, [selLog, linkReq,
                 .log user.id (cardResponseText product.price product.name ++
                   "\n\nPayment Link: " ++ link) "bot",
                 .sendPaymentLinkButton sid link product.price product.name])
        | none =>
          let db2 := updateOrder db1 { order with status := "failed" }
          (db2, [selLog, linkReq, .log user.id cardFailText "bot",
                 .sendMessage sid cardFailText])
      else
        (db, [.log user.id itemUnavailableText "bot",
              .sendMessage sid itemUnavailableText])

/-- Postback dispatch (chat_service.py lines 605-942): log the payload with
sender user, then match its prefix; unknown payloads fall through. -/
def handlePostback (env : Env) (db : DB) (user : UserR) (sid payload : String) :
    DB × List Act :=
  let inLog : Act := .log user.id payload "user"
  if pyStartsWith payload "BUY_" then
    let r := handleBuy env db user sid payload
    (r.1, inLog :: r.2)
  else if pyStartsWith payload "PAY_MPESA_" then
    let r := handlePayMpesa env db user sid payload
    (r.1, inLog :: r.2)
  else if pyStartsWith payload "PAY_CARD_" then
    let r := handlePayCard env db user sid payload
    (r.1, inLog :: r.2)
  else if payload = "SHOW_MEN" then
    let r := handleShowroom sid "men" user.id db
    (r.1, inLog :: .log user.id "[BUTTON CLICK] View Collection - Men" "bot" :: r.2)
  else if payload = "SHOW_WOMEN" then
    let r := handleShowroom sid "women" user.id db
    (r.1, inLog :: .log user.id "[BUTTON CLICK] View Collection - Women" "bot" :: r.2)
  else
    (db, [inLog])

/-! ## Text message handler (process_webhook_event, message branch) -/

/-- Text dispatch (chat_service.py lines 961-1065): phone-number capture,
greetings, category keywords, default echo. -/
def handleText (env : Env) (db : DB) (user : UserR) (sid text : String) :
    DB × List Act :=
  let inLog : Act := .log user.id text "user"
  let textLower := pyLower (pyStrip text)
  if kenyanMatch textLower then
    match normalize_kenyan_phone_to_e164 textLower with
    | none => (db, [inLog, .sendMessage sid validNumText])
    | some e164 =>
      let u1 : UserR := { user with phone_number := some textLower }
      let db1 := updateUser db u1
      if pyTruthyNat u1.pending_product_id then
        let pendingId := u1.pending_product_id.getD 0
        match findProductN db1 pendingId with
        | none =>
          let u2 : UserR := { u1 with pending_product_id := none }
          (updateUser db1 u2, [inLog, .sendMessage sid itemGoneText])
        | some product =>
          if product.is_active then
            let u2 : UserR := { u1 with pending_product_id := none }
            (updateUser db1 u2,
             [inLog,
              .stkPush e164 product.price (firstNameOf user.name)
                (lastNameOf user.name) (customerEmail sid)
                ("IG_" ++ sid ++ "_PRODUCT_" ++ pyStr pendingId),
              .sendMessage sid promptSentText])
          else
            let u2 : UserR := { u1 with pending_product_id := none }
            (updateUser db1 u2, [inLog, .sendMessage sid itemGoneText])
      else
        (db1, [inLog, .sendMessage sid thanksSavedText])
  else if textLower = "hi" || textLower = "hello" || textLower = "start" then
    (db, [inLog, .sendWelcomeMenu sid] ++
         (if env.sendOk then [.log user.id "Welcome menu displayed" "bot"] else []))
  else if textLower = "men" || textLower = "women" then
    let r := handleShowroom sid textLower user.id db
    (r.1, inLog :: r.2)
  else
    let echo := "You said: " ++ text ++ ". (AI coming soon!)"
    (db, [inLog, .log user.id echo "bot", .sendMessage sid echo])

/-! ## Per-event processing (process_webhook_event, lines 571-1065) -/

/-- The message part of a raw messaging event. -/
structure MsgPart where
  isEcho : Bool
  text : Option String
deriving Repr, DecidableEq

/-- One raw messaging event: status flags, optional sender id, optional
postback payload and optional message. -/
structure RawEvent where
  hasDelivery : Bool
  hasRead : Bool
  sender : Option String
  postback : Option String
  message : Option MsgPart
deriving Repr, DecidableEq

/-- find-or-create User by instagram_id (chat_service.py lines 588-602). -/
def findOrCreateUser (db : DB) (sid : String) : DB × UserR :=
  match findUser db sid with
  | some u => (db, u)
  | none =>
    let u : UserR := { id := db.next_user_id, instagram_id := sid,
                       name := none, phone_number := none,
                       pending_product_id := none }
    ({ db with users := db.users ++ [u], next_user_id := db.next_user_id + 1 }, u)

/-- Process one messaging event: skip status updates, missing senders,
echoes and empty texts; find or create the user; dispatch to the postback
or text handler. -/
def processRawEvent (env : Env) (db : DB) (e : RawEvent) : DB × List Act :=
  if e.hasDelivery || e.hasRead then (db, [])
  else
    match e.sender with
    | none => (db, [])
    | some sid =>
      let fc := findOrCreateUser db sid
      match e.postback with
      | some payload => handlePostback env fc.1 fc.2 sid payload
      | none =>
        match e.message with
        | none => (fc.1, [])
        | some m =>
          if m.isEcho then (fc.1, [])
          else
            match m.text with
            | none => (fc.1, [])
            | some t => if t = "" then (fc.1, []) else handleText env fc.1 fc.2 sid t

/-- process_webhook_event: fold event processing over the entries of a
payload, accumulating database state and the action trace. Exceptions and
transaction rollback are not modelled. -/
def process_webhook_event (env : Env) (db : DB) (entries : List (List RawEvent)) :
    DB × List Act :=
  entries.foldl
    (fun acc events =>
      events.foldl
        (fun acc2 e =>
          let r := processRawEvent env acc2.1 e
          (r.1, acc2.2 ++ r.2))
        acc)
    (db, [])

/-! ## PesaPal IPN reconciliation (src/services/pesapal_ipn.py) -/

/-- Nested data object of a PesaPal status response. -/
structure StatusData where
  payment_status_description : Option String
  payment_status : Option String
  status : Option String
deriving Repr, DecidableEq

/-- A PesaPal payment-status response document. Only the fields the handler
reads are modelled; a non-dict data value behaves like an absent one. -/
structure StatusResponse where
  payment_status_description : Option String
  payment_status : Option String
  status : Option String
  state : Option String
  data : Option StatusData
deriving Repr, DecidableEq

/-- Status-token extraction (pesapal_ipn.py lines 69-89): chained lookups
over several field names, then one level of nesting, then upper-casing. -/
def extractPaymentStatus (r : StatusResponse) : String :=
  let s0 := firstTruthy
    [r.payment_status_description, r.payment_status, r.status, r.state]
  let s1 :=
    if s0 = "" then
      match r.data with
      | some d => firstTruthy [d.payment_status_description, d.payment_status, d.status]
      | none => ""
    else s0
  if s1 = "" then "" else pyUpper s1

/-- Success-family tokens (pesapal_ipn.py line 97). -/
def successTokens : List String :=
  ["COMPLETED", "COMPLETE", "SUCCESS", "SUCCESSFUL", "PAID"]

/-- Failure-family tokens (pesapal_ipn.py line 138). -/
def failTokens : List String := ["FAILED", "CANCELLED", "REJECTED"]

/-- Payment-success confirmation text (order id interpolated). -/
def successText (oid : Nat) : String :=
  "✅ Payment successful! 🎉\n\nYour order #" ++ pyStr oid ++
    " has been confirmed.\n\nThank you for shopping with Dumu Apparels!"

/-- Payment-failure notification text (order id interpolated). -/
def failureText (oid : Nat) : String :=
  "❌ Payment was not successful.\n\nYour order #" ++ pyStr oid ++
    " could not be processed.\n\nPlease try again or contact support if the issue persists."

/-- Order-id extraction from a merchant reference (pesapal_ipn.py lines
33-43): prefix check, then replace of every occurrence of ORDER_, strip,
and int(). -/
def parsedOrderId (merchant_reference : String) : Option Int :=
  if pyStartsWith merchant_reference "ORDER_" then
    pyInt (pyStrip (pyReplace merchant_reference "ORDER_" ""))
  else none

/-- process_pesapal_ipn: reconcile one IPN notification against the orders
table. statusResponse models the result of get_pesapal_payment_status;
none covers both a failed call and a falsy (empty) response document. -/
def process_pesapal_ipn (order_tracking_id merchant_reference : String)
    (statusResponse : Option StatusResponse) (db : DB) : DB × List Act :=
  match parsedOrderId merchant_reference with
  | none => (db, [])
  | some oid =>
    match findOrderI db oid with
    | none => (db, [])
    | some order =>
      if order.status = "paid" || order.status = "failed" then (db, [])
      else
        match statusResponse with
        | none => (db, [])
        | some resp =>
          let token := extractPaymentStatus resp
          if successTokens.contains token then
            let order1 := { order with status := "paid",
                                       transaction_ref := some order_tracking_id }
            let db1 := updateOrder db order1
            match findUserById db1 order.user_id with
            | some u =>
              (db1, [.log u.id (successText order.id) "bot",
                     .sendMessage u.instagram_id (successText order.id)])
            | none => (db1, [])
          else if failTokens.contains token then
            let order1 := { order with status := "failed",
                                       transaction_ref := some order_tracking_id }
            let db1 := updateOrder db order1
            match findUserById db1 order.user_id with
            | some u =>
              (db1, [.log u.id (failureText order.id) "bot",
                     .sendMessage u.instagram_id (failureText order.id)])
            | none => (db1, [])
          else
            if pyTruthyStr order.transaction_ref then (db, [])
            else
              (updateOrder db { order with
                 transaction_ref := some ("Status: " ++ token) }, [])

/-! ## Webhook verification (src/main.py verify_webhook, lines 123-175) -/

/-- Response of the GET /webhook verification endpoint. -/
inductive VerifyResp where
  | ok (challenge : String)
  | badRequest
  | forbidden
deriving Repr, DecidableEq

/-- verify_webhook: 400 if any of the three query parameters is falsy
(missing or empty), 403 on mode or token mismatch, else the challenge. -/
def verify_webhook (mode token challenge : Option String)
    (configVerifyToken : String) : VerifyResp :=
  if !(pyTruthyStr mode && pyTruthyStr token && pyTruthyStr challenge) then
    .badRequest
  else if mode.getD "" ≠ "subscribe" then .forbidden
  else if token.getD "" ≠ configVerifyToken then .forbidden
  else .ok (challenge.getD "")

/-! ## Spec-side definitions (used to state claims against the code) -/

/-- Claim C5 reading of the phone pattern: the input itself (no stripping)
is a 0, then 7 or 1, then exactly eight digits. -/
def specKenyanPattern (s : String) : Bool := kenyanCore s.data

/-- Claim C3 reading of a well-formed merchant reference: literally
ORDER_ followed by a decimal integer (optional sign, then digits). -/
def specWellFormedOrderRef (s : String) : Bool :=
  pyStartsWith s "ORDER_" &&
    (let rest := s.data.drop 6
     match rest with
     | '+' :: ds => ds ≠ [] && ds.all Char.isDigit
     | '-' :: ds => ds ≠ [] && ds.all Char.isDigit
     | ds => ds ≠ [] && ds.all Char.isDigit)

/-- Claim C8 as stated (read generously): every outbound send in a trace
has at least one bot-sender log entry somewhere in the same trace. -/
def claimSendsLogged (trace : List Act) : Bool :=
  trace.all (fun a => !isMsgSend a || trace.any isBotLog)

/-- Texts the dispatcher sends without writing any ConversationLog entry
(the exceptions of the amended claim C8). -/
def unloggedSendTexts : List String :=
  [errApologyText, validNumText, itemGoneText, promptSentText, thanksSavedText]

/-- A send excused by the amended claim C8. -/
def isExcusedSend : Act → Bool
  | .sendMessage _ t => unloggedSendTexts.contains t
  | _ => false

/-- Head of a trace is a bot log entry. -/
def headIsBotLog : List Act → Bool
  | [] => false
  | a :: _ => isBotLog a

/-- Adjacency check: every outbound send is immediately preceded or
followed by a bot log entry, unless excused. prevBot records whether the
previous action was a bot log. -/
def okSendsAux (prevBot : Bool) : List Act → Bool
  | [] => true
  | a :: rest =>
    (if isMsgSend a then (isExcusedSend a || prevBot || headIsBotLog rest) else true)
      && okSendsAux (isBotLog a) rest

/-- Amended claim C8 checker over a whole trace. -/
def okSends (trace : List Act) : Bool := okSendsAux false trace

/-! ## Support lemmas: lookups and updates -/

theorem mem_of_findBy {α κ : Type} [DecidableEq κ] {key : α → κ} {l : List α}
    {k : κ} {a : α} (h : findBy key l k = some a) : a ∈ l ∧ key a = k := by
  unfold findBy at h
  have h2 := List.find?_some h
  simp only [decide_eq_true_eq] at h2
  exact ⟨List.mem_of_find?_eq_some h, h2⟩

theorem findBy_updBy {α κ : Type} [DecidableEq κ] (key : α → κ) (l : List α)
    (a : α) (hex : ∃ x ∈ l, key x = key a) :
    findBy key (updBy key l a) (key a) = some a := by
  induction l with
  | nil => rcases hex with ⟨x, hx, _⟩; cases hx
  | cons h t ih =>
    unfold updBy findBy
    by_cases hk : key h = key a
    · simp only [List.map_cons, if_pos hk]
      exact List.find?_cons_of_pos _ (by simp)
    · simp only [List.map_cons, if_neg hk]
      rw [List.find?_cons_of_neg _ (by simpa using hk)]
      apply ih
      rcases hex with ⟨x, hx, hkey⟩
      rcases List.mem_cons.mp hx with rfl | hxt
      · exact absurd hkey hk
      · exact ⟨x, hxt, hkey⟩

theorem updBy_updBy {α κ : Type} [DecidableEq κ] (key : α → κ) (l : List α)
    (a b : α) (hab : key b = key a) :
    updBy key (updBy key l a) b = updBy key l b := by
  unfold updBy
  rw [List.map_map]
  apply List.map_congr_left
  intro x _
  by_cases hk : key x = key a
  · simp [Function.comp, hk, hab]
  · simp [Function.comp, hk, hab]

theorem updBy_append_fresh {α κ : Type} [DecidableEq κ] (key : α → κ)
    (l : List α) (a b : α) (hfresh : ∀ x ∈ l, key x ≠ key a)
    (hab : key b = key a) : updBy key (l ++ [a]) b = l ++ [b] := by
  unfold updBy
  rw [List.map_append]
  congr 1
  · conv_rhs => rw [show l = l.map id from (List.map_id l).symm]
    apply List.map_congr_left
    intro x hx
    rw [if_neg (by rw [hab]; exact hfresh x hx)]
    rfl
  · simp [hab.symm]

/-! ## Support lemmas: characters and digits -/

theorem char_ne_of_digit {c p : Char} (hc : c.isDigit = true)
    (hp : p.isDigit = false) : c ≠ p := by
  intro h; rw [h, hp] at hc; exact Bool.false_ne_true hc

theorem digit_not_space {c : Char} (hc : c.isDigit = true) :
    isPySpace c = false := by
  cases h : isPySpace c
  · rfl
  · exfalso
    unfold isPySpace at h
    simp only [Bool.or_eq_true, decide_eq_true_eq] at h
    rcases h with ((((h | h) | h) | h) | h) | h <;>
      (subst h; exact absurd hc (by decide))

theorem digitChar_isDigit {d : Nat} (hd : d < 10) :
    (digitChar d).isDigit = true := by
  interval_cases d <;> decide

theorem digitChar_toNat {d : Nat} (hd : d < 10) :
    (digitChar d).toNat - 48 = d := by
  interval_cases d <;> decide

/-! ## Support lemmas: stripL on clean strings -/

theorem dropWhile_eq_self_of_all {p : Char → Bool} {l : List Char}
    (h : ∀ c ∈ l, p c = false) : l.dropWhile p = l := by
  cases l with
  | nil => rfl
  | cons a as =>
    rw [List.dropWhile_cons, h a (List.mem_cons_self a as)]
    simp

theorem stripL_eq_self {l : List Char} (h : ∀ c ∈ l, isPySpace c = false) :
    stripL l = l := by
  unfold stripL
  rw [dropWhile_eq_self_of_all h,
      dropWhile_eq_self_of_all (fun c hc => h c (List.mem_reverse.mp hc)),
      List.reverse_reverse]

/-! ## Support lemmas: decimal digits of a natural number -/

theorem natDigitsRev_digits :
    ∀ (fuel n : Nat), n ≤ fuel → ∀ c ∈ natDigitsRev fuel n, ∃ d, d < 10 ∧ c = digitChar d := by
  intro fuel
  induction fuel with
  | zero =>
    intro n hn c hc
    interval_cases n
    simp only [natDigitsRev, List.mem_singleton] at hc
    exact ⟨0, by omega, hc⟩
  | succ f ih =>
    intro n hn c hc
    by_cases h10 : n < 10
    · simp only [natDigitsRev, if_pos h10, List.mem_singleton] at hc
      exact ⟨n, h10, hc⟩
    · simp only [natDigitsRev, if_neg h10, List.mem_cons] at hc
      rcases hc with rfl | hc
      · exact ⟨n % 10, Nat.mod_lt _ (by omega), rfl⟩
      · have hlt : n / 10 < n := Nat.div_lt_self (by omega) (by omega)
        exact ih (n / 10) (by omega) c hc

theorem natDigitsRev_ne_nil (fuel n : Nat) : natDigitsRev fuel n ≠ [] := by
  cases fuel with
  | zero => simp [natDigitsRev]
  | succ f =>
    by_cases h10 : n < 10 <;> simp [natDigitsRev, h10]

theorem foldl_natDigitsRev :
    ∀ (fuel n acc : Nat), n ≤ fuel →
      ((natDigitsRev fuel n).reverse).foldl (fun a c => a * 10 + (c.toNat - 48)) acc =
        acc * 10 ^ (natDigitsRev fuel n).length + n := by
  intro fuel
  induction fuel with
  | zero =>
    intro n acc hn
    interval_cases n
    simp [natDigitsRev, digitChar_toNat (by omega : (0:Nat) < 10)]
  | succ f ih =>
    intro n acc hn
    by_cases h10 : n < 10
    · simp [natDigitsRev, if_pos h10, digitChar_toNat h10]
    · have hlt : n / 10 < n := Nat.div_lt_self (by omega) (by omega)
      have hdm : 10 * (n / 10) + n % 10 = n := Nat.div_add_mod n 10
      simp only [natDigitsRev, if_neg h10, List.reverse_cons, List.foldl_append,
        List.foldl_cons, List.foldl_nil, List.length_cons]
      rw [ih (n / 10) acc (by omega)]
      rw [digitChar_toNat (Nat.mod_lt _ (by omega))]
      rw [pow_succ]
      have : acc * 10 ^ (natDigitsRev f (n / 10)).length * 10 + (10 * (n / 10) + n % 10) =
          acc * (10 ^ (natDigitsRev f (n / 10)).length * 10) + n := by
        rw [hdm]; ring
      calc (acc * 10 ^ (natDigitsRev f (n / 10)).length + n / 10) * 10 + n % 10
      _ = acc * 10 ^ (natDigitsRev f (n / 10)).length * 10 + (10 * (n / 10) + n % 10) := by ring
      _ = acc * (10 ^ (natDigitsRev f (n / 10)).length * 10) + n := this

theorem pyStr_data_digits (n : Nat) : ∀ c ∈ (pyStr n).data, c.isDigit = true := by
  intro c hc
  unfold pyStr at hc
  rcases natDigitsRev_digits n n (le_refl n) c (List.mem_reverse.mp hc) with ⟨d, hd, rfl⟩
  exact digitChar_isDigit hd

/-! ## Support lemmas: digitsVal and pyInt on digit strings -/

theorem digitsVal_all_digits :
    ∀ (l : List Char) (acc : Nat), (∀ c ∈ l, c.isDigit = true) →
      digitsVal l acc = some (l.foldl (fun a c => a * 10 + (c.toNat - 48)) acc) := by
  intro l
  induction l with
  | nil => intro acc _; simp [digitsVal]
  | cons c rest ih =>
    intro acc h
    have hc : c.isDigit = true := h c (List.mem_cons_self c rest)
    have hcu : ¬(c = '_') := char_ne_of_digit hc (by decide)
    unfold digitsVal
    rw [if_neg hcu, if_pos hc, List.foldl_cons]
    exact ih _ (fun x hx => h x (List.mem_cons_of_mem c hx))

theorem parseUnsignedDigits_all_digits (l : List Char) (hne : l ≠ [])
    (h : ∀ c ∈ l, c.isDigit = true) :
    parseUnsignedDigits l =
      some (l.foldl (fun a c => a * 10 + (c.toNat - 48)) 0) := by
  cases l with
  | nil => exact absurd rfl hne
  | cons c rest =>
    have hc : c.isDigit = true := h c (List.mem_cons_self c rest)
    simp only [parseUnsignedDigits, hc, if_true]
    rw [digitsVal_all_digits rest _ (fun x hx => h x (List.mem_cons_of_mem c hx)),
      List.foldl_cons]
    congr 2
    omega

theorem pyInt_pyStr (n : Nat) : pyInt (pyStr n) = some (n : Int) := by
  have hdig := pyStr_data_digits n
  have hstrip : stripL (pyStr n).data = (pyStr n).data :=
    stripL_eq_self (fun c hc => digit_not_space (hdig c hc))
  have hne : (pyStr n).data ≠ [] := by
    show (natDigitsRev n n).reverse ≠ []
    intro h
    exact natDigitsRev_ne_nil n n (by simpa using h)
  unfold pyInt
  rw [hstrip]
  rcases hd : (pyStr n).data with _ | ⟨c, rest⟩
  · exact absurd hd hne
  · have hc : c.isDigit = true := hdig c (by rw [hd]; exact List.mem_cons_self c rest)
    simp only [pyIntCore]
    rw [if_neg (char_ne_of_digit hc (by decide)), if_neg (char_ne_of_digit hc (by decide))]
    rw [parseUnsignedDigits_all_digits (c :: rest) (by simp)
      (fun x hx => hdig x (by rw [hd]; exact hx))]
    have hfold : (c :: rest).foldl (fun a x => a * 10 + (x.toNat - 48)) 0 = n := by
      have hfd := foldl_natDigitsRev n n 0 (le_refl n)
      have hd2 : (natDigitsRev n n).reverse = c :: rest := hd
      rw [hd2] at hfd
      simpa using hfd
    rw [hfold]
    rfl

/-! ## Support lemmas: startswith and replace -/

theorem isPrefixOf_append_self (l1 l2 : List Char) :
    l1.isPrefixOf (l1 ++ l2) = true := by
  induction l1 with
  | nil => simp [List.isPrefixOf]
  | cons a as ih => simp [List.isPrefixOf, ih]

theorem pyStartsWith_append (pre s : String) : pyStartsWith (pre ++ s) pre = true := by
  unfold pyStartsWith
  rw [show (pre ++ s).data = pre.data ++ s.data from rfl]
  exact isPrefixOf_append_self _ _

theorem isPrefixOf_cons_ne {a b : Char} (as bs : List Char) (h : (a == b) = false) :
    (a :: as).isPrefixOf (b :: bs) = false := by
  simp [List.isPrefixOf, h]

theorem pyReplaceGo_no_match (p : Char) (ps rep : List Char) :
    ∀ (fuel : Nat) (l : List Char), (∀ c ∈ l, c ≠ p) →
      pyReplaceGo (p :: ps) rep fuel l = l := by
  intro fuel
  induction fuel with
  | zero => intro l _; cases l <;> simp [pyReplaceGo]
  | succ f ih =>
    intro l h
    cases l with
    | nil => simp [pyReplaceGo]
    | cons c rest =>
      have hpc : (p == c) = false :=
        beq_eq_false_iff_ne.mpr (Ne.symm (h c (List.mem_cons_self c rest)))
      simp only [pyReplaceGo]
      rw [isPrefixOf_cons_ne ps rest hpc]
      simp only [Bool.false_eq_true, if_false]
      rw [ih rest (fun x hx => h x (List.mem_cons_of_mem c hx))]

theorem pyReplaceGo_strip_head (p : Char) (ps s : List Char)
    (hs : ∀ c ∈ s, c ≠ p) :
    pyReplaceGo (p :: ps) [] ((p :: ps) ++ s).length ((p :: ps) ++ s) = s := by
  have hlen : ((p :: ps) ++ s).length = ps.length + s.length + 1 := by
    simp [List.length_append]
  rw [hlen]
  show pyReplaceGo (p :: ps) [] (ps.length + s.length + 1) (p :: (ps ++ s)) = s
  simp only [pyReplaceGo]
  rw [show ((p :: ps).isPrefixOf (p :: (ps ++ s))) = true from isPrefixOf_append_self (p :: ps) s]
  simp only [if_true, List.nil_append]
  rw [show (p :: ps).length - 1 = ps.length from by simp]
  rw [List.drop_left ps s]
  exact pyReplaceGo_no_match p ps [] _ s hs

theorem pyReplace_cancel (pre s : String) (p : Char) (ps : List Char)
    (hd : pre.data = p :: ps) (hs : ∀ c ∈ s.data, c ≠ p) :
    pyReplace (pre ++ s) pre "" = s := by
  unfold pyReplace
  rw [if_neg (by rw [hd]; simp)]
  rw [show (pre ++ s).data = pre.data ++ s.data from rfl, hd]
  rw [show ("" : String).data = [] from rfl]
  rw [pyReplaceGo_strip_head p ps s.data hs]

/-- Digits never contain the uppercase letters that begin the payload and
reference patterns of the repository. -/
theorem pyStr_no_upper (n : Nat) (p : Char) (hp : p.isDigit = false) :
    ∀ c ∈ (pyStr n).data, c ≠ p :=
  fun c hc => char_ne_of_digit (pyStr_data_digits n c hc) hp

/-- Parsing the canonical payload/reference form pre ++ str(n) with the
replace-then-strip-then-int pipeline of the code recovers n, whenever the
pattern pre begins with a non-digit character. -/
theorem parse_pipeline_roundtrip (pre : String) (n : Nat) (p : Char) (ps : List Char)
    (hd : pre.data = p :: ps) (hp : p.isDigit = false) :
    pyInt (pyStrip (pyReplace (pre ++ pyStr n) pre "")) = some (n : Int) := by
  rw [pyReplace_cancel pre (pyStr n) p ps hd (pyStr_no_upper n p hp)]
  have hstrip : pyStrip (pyStr n) = pyStr n := by
    unfold pyStrip
    rw [stripL_eq_self (fun c hc => digit_not_space (pyStr_data_digits n c hc))]
  rw [hstrip]
  exact pyInt_pyStr n

/-! ## Concrete rows used by witnesses and counterexamples -/

/-- Empty database. -/
def dbEmpty : DB :=
  { users := [], products := [], orders := [], next_user_id := 1, next_order_id := 1 }

/-- A pending order owned by user 1. -/
def ordW : OrderR :=
  { id := 1, user_id := 1, product_id := 7, amount := (1999 : Rat),
    status := "pending", payment_provider := some "pesapal", transaction_ref := none }

/-- A paid order owned by user 1. -/
def ordPaid : OrderR := { ordW with status := "paid", transaction_ref := some "OLD" }

/-- A simple user row. -/
def userW : UserR :=
  { id := 1, instagram_id := "sid1", name := none, phone_number := none,
    pending_product_id := none }

/-- An active product row with id 7. -/
def prodW : ProductR :=
  { id := 7, name := "Runner", category := "men", price := (1999 : Rat),
    image_url := "http://img", sizes := ["41"], is_active := true }

/-- A status response carrying a success token. -/
def respCompleted : StatusResponse :=
  { payment_status_description := some "Completed", payment_status := none,
    status := none, state := none, data := none }

/-! ## Parse helpers for claims over canonical references -/

theorem pyStrip_digits (s : String) (hdig : ∀ c ∈ s.data, c.isDigit = true) :
    pyStrip s = s := by
  unfold pyStrip
  rw [stripL_eq_self (fun c hc => digit_not_space (hdig c hc))]

theorem parsedOrderId_canonical (s : String) (i : Int)
    (hdig : ∀ c ∈ s.data, c.isDigit = true) (hparse : pyInt s = some i) :
    parsedOrderId ("ORDER_" ++ s) = some i := by
  unfold parsedOrderId
  rw [pyStartsWith_append "ORDER_" s]
  simp only [if_true]
  rw [pyReplace_cancel "ORDER_" s 'O' ['R', 'D', 'E', 'R', '_'] rfl
    (fun c hc => char_ne_of_digit (hdig c hc) (by decide))]
  rw [pyStrip_digits s hdig]
  exact hparse

/-! ## Claim C1 -/

/-- C1: for every Order already in a terminal state (paid or failed),
running process_pesapal_ipn with any well-formed merchant reference for
that order and any provider status payload leaves the database unchanged
(in particular the order status and transaction_ref) and sends no message. -/
theorem pesapal_terminal_order_noop (trackingId s : String) (i : Int) (db : DB)
    (resp : Option StatusResponse) (order : OrderR)
    (hdig : ∀ c ∈ s.data, c.isDigit = true) (hparse : pyInt s = some i)
    (hord : findOrderI db i = some order)
    (hterm : order.status = "paid" ∨ order.status = "failed") :
    process_pesapal_ipn trackingId ("ORDER_" ++ s) resp db = (db, []) := by
  have hpid := parsedOrderId_canonical s i hdig hparse
  simp only [process_pesapal_ipn, hpid, hord]
  rcases hterm with h | h <;> simp [h]

/-- Witness for C1 at a concrete database and reference. -/
theorem pesapal_terminal_order_noop_witness :
    pyInt "1" = some 1 ∧
    process_pesapal_ipn "TRK" ("ORDER_" ++ "1") (some respCompleted)
      { dbEmpty with orders := [ordPaid] } =
      ({ dbEmpty with orders := [ordPaid] }, []) :=
  ⟨by decide,
   pesapal_terminal_order_noop "TRK" "1" 1 _ (some respCompleted) ordPaid
     (by decide) (by decide) (by decide) (Or.inl (by decide))⟩

/-! ## Claim C3 (corrected) -/

/-- Counterexample to C3 as stated: the reference ORDER_ORDER_1 is not of
the form ORDER_(integer), yet reconciliation mutates order 1 to paid and
sends a message, because str.replace removes every occurrence of ORDER_. -/
theorem pesapal_malformed_ref_counterexample :
    specWellFormedOrderRef "ORDER_ORDER_1" = false ∧
    (process_pesapal_ipn "TRK1" "ORDER_ORDER_1" (some respCompleted)
      { dbEmpty with users := [userW], orders := [ordW] }).2 ≠ [] ∧
    findOrderI (process_pesapal_ipn "TRK1" "ORDER_ORDER_1" (some respCompleted)
      { dbEmpty with users := [userW], orders := [ordW] }).1 1 =
      some { ordW with status := "paid", transaction_ref := some "TRK1" } := by
  refine ⟨by decide, by decide, by decide⟩

/-- C3 amended: reconciliation performs no Order mutation and sends no
message whenever the parse in the code fails, i.e. the reference does not
start with ORDER_, or the remainder after deleting every occurrence of
ORDER_ and stripping whitespace is not a Python integer literal. -/
theorem pesapal_unparsed_ref_noop (trackingId ref : String)
    (resp : Option StatusResponse) (db : DB) (h : parsedOrderId ref = none) :
    process_pesapal_ipn trackingId ref resp db = (db, []) := by
  unfold process_pesapal_ipn
  rw [h]

/-- Witness for the amended C3 at a concrete malformed reference. -/
theorem pesapal_unparsed_ref_noop_witness :
    parsedOrderId "ORDER_X" = none ∧
    process_pesapal_ipn "TRK" "ORDER_X" none dbEmpty = (dbEmpty, []) :=
  ⟨by decide, pesapal_unparsed_ref_noop "TRK" "ORDER_X" none dbEmpty (by decide)⟩

/-! ## Claim C5 (corrected) -/

/-- Counterexample to C5 as stated: the input with a trailing space does
not match 0[71]XXXXXXXX, yet normalization succeeds (the code strips
whitespace before matching), while the claim requires failure. -/
theorem normalize_claim_counterexample :
    specKenyanPattern "0712345678 " = false ∧
    normalize_kenyan_phone_to_e164 "0712345678 " = some "+254712345678" := by
  refine ⟨by decide, by decide⟩

/-- C5 amended: normalization strips whitespace first; if the stripped
input matches the local pattern it returns +254 followed by the trailing
nine characters of the stripped input, otherwise it fails. -/
theorem normalize_strip_spec (s : String) :
    (kenyanMatch (pyStrip s) = true →
      normalize_kenyan_phone_to_e164 s =
        some ("+254" ++ String.mk ((pyStrip s).data.drop 1))) ∧
    (kenyanMatch (pyStrip s) = false →
      normalize_kenyan_phone_to_e164 s = none) := by
  constructor <;> intro h <;> simp [normalize_kenyan_phone_to_e164, h]

/-- Witness for the amended C5 at a concrete valid number. -/
theorem normalize_strip_spec_witness :
    kenyanMatch (pyStrip "0112345678") = true ∧
    normalize_kenyan_phone_to_e164 "0112345678" = some "+254112345678" :=
  ⟨by decide, (normalize_strip_spec "0112345678").1 (by decide)⟩

/-! ## Claim C9 (corrected) -/

/-- Counterexample to C9 as stated: with all three parameters present,
mode equal to subscribe and the token equal to the configured secret, the
claim requires the challenge response, but a present-and-empty challenge
is falsy in Python and the endpoint answers 400. -/
theorem verify_webhook_counterexample :
    (some "subscribe" : Option String).isSome = true ∧
    (some "tok" : Option String).isSome = true ∧
    (some "" : Option String).isSome = true ∧
    verify_webhook (some "subscribe") (some "tok") (some "") "tok" =
      VerifyResp.badRequest := by
  refine ⟨rfl, rfl, rfl, by decide⟩

/-- C9 amended: presence is read as Python truthiness (present and
non-empty). The endpoint returns the challenge iff all three parameters
are truthy, mode is subscribe and the token equals the secret; it returns
400 when any parameter is missing or empty, and 403 when all are truthy
but mode or token mismatches. -/
theorem verify_webhook_spec (mode token challenge : Option String) (secret : String) :
    (verify_webhook mode token challenge secret = VerifyResp.ok (challenge.getD "") ↔
      (pyTruthyStr mode = true ∧ pyTruthyStr token = true ∧ pyTruthyStr challenge = true ∧
        mode = some "subscribe" ∧ token = some secret)) ∧
    ((pyTruthyStr mode = false ∨ pyTruthyStr token = false ∨ pyTruthyStr challenge = false) →
      verify_webhook mode token challenge secret = VerifyResp.badRequest) ∧
    (pyTruthyStr mode = true → pyTruthyStr token = true → pyTruthyStr challenge = true →
      (mode ≠ some "subscribe" ∨ token ≠ some secret) →
      verify_webhook mode token challenge secret = VerifyResp.forbidden) := by
  unfold verify_webhook
  rcases mode with _ | m <;> rcases token with _ | t <;> rcases challenge with _ | c <;>
    simp only [pyTruthyStr, Option.getD] <;>
    constructor
  all_goals try (constructor <;> intro h)
  all_goals simp_all
  all_goals try (by_cases hm : m = "subscribe" <;> by_cases ht : t = secret <;>
    by_cases hme : m = "" <;> by_cases hte : t = "" <;> by_cases hce : c = "" <;>
    simp_all)

/-- Witness for the amended C9 at a concrete successful verification. -/
theorem verify_webhook_spec_witness :
    verify_webhook (some "subscribe") (some "tok") (some "ch") "tok" =
      VerifyResp.ok "ch" :=
  (verify_webhook_spec (some "subscribe") (some "tok") (some "ch") "tok").1.mpr
    ⟨by decide, by decide, by decide, rfl, rfl⟩

/-! ## Claim C2 -/

theorem findOrderI_updateOrder (db : DB) (order o1 : OrderR) (i : Int)
    (hord : findOrderI db i = some order) (hid : o1.id = order.id) :
    findOrderI (updateOrder db o1) i = some o1 := by
  have hmem := mem_of_findBy hord
  have hkey : ((o1.id : Nat) : Int) = i := by rw [hid]; exact hmem.2
  unfold findOrderI updateOrder
  show findBy (fun o => ((o.id : Nat) : Int)) (updBy (fun o => ((o.id : Nat) : Int)) db.orders o1) i = some o1
  rw [← hkey]
  exact findBy_updBy _ db.orders o1 ⟨order, hmem.1, by rw [hid]⟩

theorem findUserById_updateOrder (db : DB) (o : OrderR) (uid : Nat) :
    findUserById (updateOrder db o) uid = findUserById db uid := rfl

/-- The success and failure token families are disjoint. -/
theorem fail_token_not_success {tok : String}
    (h : failTokens.contains tok = true) :
    successTokens.contains tok = false := by
  have h2 : tok = "FAILED" ∨ tok = "CANCELLED" ∨ tok = "REJECTED" := by
    simpa [failTokens] using List.elem_iff.mp h
  rcases h2 with h2 | h2 | h2 <;> (subst h2; decide)

/-- C2: for a pending order reached through a well-formed merchant
reference, reconciliation maps the extracted status token as the code
does: a success-family token marks the order paid, records the tracking
id and sends the fixed success message to the owning user; a
failure-family token marks it failed, records the tracking id and sends
the fixed failure message; any other token leaves the order status
pending. -/
theorem pesapal_pending_status_mapping (trackingId s : String) (i : Int)
    (db : DB) (r : StatusResponse) (order : OrderR) (u : UserR)
    (hdig : ∀ c ∈ s.data, c.isDigit = true) (hparse : pyInt s = some i)
    (hord : findOrderI db i = some order) (hpend : order.status = "pending")
    (huser : findUserById db order.user_id = some u) :
    (successTokens.contains (extractPaymentStatus r) = true →
      findOrderI (process_pesapal_ipn trackingId ("ORDER_" ++ s) (some r) db).1 i =
        some { order with status := "paid", transaction_ref := some trackingId } ∧
      (process_pesapal_ipn trackingId ("ORDER_" ++ s) (some r) db).2 =
        [Act.log u.id (successText order.id) "bot",
         Act.sendMessage u.instagram_id (successText order.id)]) ∧
    (failTokens.contains (extractPaymentStatus r) = true →
      findOrderI (process_pesapal_ipn trackingId ("ORDER_" ++ s) (some r) db).1 i =
        some { order with status := "failed", transaction_ref := some trackingId } ∧
      (process_pesapal_ipn trackingId ("ORDER_" ++ s) (some r) db).2 =
        [Act.log u.id (failureText order.id) "bot",
         Act.sendMessage u.instagram_id (failureText order.id)]) ∧
    (successTokens.contains (extractPaymentStatus r) = false →
      failTokens.contains (extractPaymentStatus r) = false →
      (∃ o2, findOrderI (process_pesapal_ipn trackingId ("ORDER_" ++ s) (some r) db).1 i =
          some o2 ∧ o2.status = "pending") ∧
      (process_pesapal_ipn trackingId ("ORDER_" ++ s) (some r) db).2 = []) := by
  have hpid := parsedOrderId_canonical s i hdig hparse
  have hterm : (order.status = "paid" || order.status = "failed") = false := by
    rw [hpend]; decide
  refine ⟨?_, ?_, ?_⟩
  · intro hsucc
    simp only [process_pesapal_ipn, hpid, hord, hterm, Bool.false_eq_true, if_false,
      hsucc, if_true, findUserById_updateOrder, huser, and_true, true_and]
    first
      | exact ⟨findOrderI_updateOrder db order _ i hord rfl, rfl⟩
      | exact findOrderI_updateOrder db order _ i hord rfl
  · intro hfail
    have hsucc : successTokens.contains (extractPaymentStatus r) = false :=
      fail_token_not_success hfail
    simp only [process_pesapal_ipn, hpid, hord, hterm, Bool.false_eq_true, if_false,
      hsucc, hfail, if_true, findUserById_updateOrder, huser, and_true, true_and]
    first
      | exact ⟨findOrderI_updateOrder db order _ i hord rfl, rfl⟩
      | exact findOrderI_updateOrder db order _ i hord rfl
  · intro hsucc hfail
    simp only [process_pesapal_ipn, hpid, hord, hterm, Bool.false_eq_true, if_false,
      hsucc, hfail, and_true, true_and]
    by_cases htx : pyTruthyStr order.transaction_ref = true
    · simp only [htx, if_true, and_true, true_and]
      first
        | exact ⟨⟨order, hord, hpend⟩, rfl⟩
        | exact ⟨order, hord, hpend⟩
    · simp only [Bool.not_eq_true] at htx
      simp only [htx, Bool.false_eq_true, if_false, and_true, true_and]
      first
        | exact ⟨⟨_, findOrderI_updateOrder db order _ i hord rfl, hpend⟩, rfl⟩
        | exact ⟨_, findOrderI_updateOrder db order _ i hord rfl, hpend⟩

/-- Witness for C2 at a concrete pending order and success response. -/
theorem pesapal_pending_status_mapping_witness :
    successTokens.contains (extractPaymentStatus respCompleted) = true ∧
    findOrderI (process_pesapal_ipn "TRK" ("ORDER_" ++ "1") (some respCompleted)
        { dbEmpty with users := [userW], orders := [ordW] }).1 1 =
      some { ordW with status := "paid", transaction_ref := some "TRK" } :=
  ⟨by decide,
   ((pesapal_pending_status_mapping "TRK" "1" 1
      { dbEmpty with users := [userW], orders := [ordW] } respCompleted ordW userW
      (by decide) (by decide) (by decide) (by decide) (by decide)).1 (by decide)).1⟩

/-! ## Event constructors and user-update lemmas for the chat claims -/

/-- A postback (button click) event from a sender. -/
def postbackEvent (sid payload : String) : RawEvent :=
  { hasDelivery := false, hasRead := false, sender := some sid,
    postback := some payload, message := none }

/-- A non-echo text message event from a sender. -/
def textEvent (sid text : String) : RawEvent :=
  { hasDelivery := false, hasRead := false, sender := some sid,
    postback := none, message := some { isEcho := false, text := some text } }

theorem pyStrI_ofNat (n : Nat) : pyStrI ((n : Nat) : Int) = pyStr n := rfl

theorem findOrCreateUser_found (db : DB) (sid : String) (u : UserR)
    (hu : findUser db sid = some u) : findOrCreateUser db sid = (db, u) := by
  unfold findOrCreateUser
  rw [hu]

theorem findUserById_updateUser (db : DB) (u1 : UserR)
    (hex : ∃ x ∈ db.users, x.id = u1.id) :
    findUserById (updateUser db u1) u1.id = some u1 :=
  findBy_updBy UserR.id db.users u1 hex

theorem updateUser_updateUser (db : DB) (u1 u2 : UserR) (h : u2.id = u1.id) :
    updateUser (updateUser db u1) u2 = updateUser db u2 := by
  unfold updateUser
  simp only []
  congr 1
  exact updBy_updBy UserR.id db.users u1 u2 h

theorem findProductN_updateUser (db : DB) (u1 : UserR) (n : Nat) :
    findProductN (updateUser db u1) n = findProductN db n := rfl

/-! ## Claim C6 -/

/-- C6: a user with no stored phone number who clicks PAY_MPESA_(id) for
an existing active product gets pending_product_id set to the product id,
receives the phone-prompt message, and no mobile-money gateway call is
made. -/
theorem pay_mpesa_no_phone_prompt (env : Env) (db : DB) (sid : String)
    (pid : Nat) (u : UserR) (p : ProductR)
    (hu : findUser db sid = some u) (hphone : u.phone_number = none)
    (hp : findProductI db ((pid : Nat) : Int) = some p) (hact : p.is_active = true) :
    (processRawEvent env db (postbackEvent sid ("PAY_MPESA_" ++ pyStr pid))).2 =
      [Act.log u.id ("PAY_MPESA_" ++ pyStr pid) "user",
       Act.log u.id ("[BUTTON CLICK] Selected M-Pesa - Item " ++ pyStr pid) "bot",
       Act.log u.id mpesaPromptText "bot",
       Act.sendMessage sid mpesaPromptText] ∧
    findUserById (processRawEvent env db (postbackEvent sid ("PAY_MPESA_" ++ pyStr pid))).1 u.id =
      some { u with pending_product_id := some pid } ∧
    (processRawEvent env db (postbackEvent sid ("PAY_MPESA_" ++ pyStr pid))).2.filter
      isStkPush = [] := by
  have hparse : pyInt (pyStrip (pyReplace ("PAY_MPESA_" ++ pyStr pid) "PAY_MPESA_" "")) =
      some ((pid : Nat) : Int) :=
    parse_pipeline_roundtrip "PAY_MPESA_" pid 'P' ['A', 'Y', '_', 'M', 'P', 'E', 'S', 'A', '_']
      rfl (by decide)
  have hnotbuy : pyStartsWith ("PAY_MPESA_" ++ pyStr pid) "BUY_" = false := rfl
  have hyes : pyStartsWith ("PAY_MPESA_" ++ pyStr pid) "PAY_MPESA_" = true :=
    pyStartsWith_append _ _
  have hpidp : p.id = pid := by
    have := (mem_of_findBy hp).2
    exact_mod_cast this
  have hrun : processRawEvent env db (postbackEvent sid ("PAY_MPESA_" ++ pyStr pid)) =
      (updateUser db { u with pending_product_id := some p.id },
       [Act.log u.id ("PAY_MPESA_" ++ pyStr pid) "user",
        Act.log u.id ("[BUTTON CLICK] Selected M-Pesa - Item " ++ pyStrI ((pid : Nat) : Int)) "bot",
        Act.log u.id mpesaPromptText "bot",
        Act.sendMessage sid mpesaPromptText]) := by
    simp only [processRawEvent, postbackEvent, Bool.or_self, Bool.false_eq_true, if_false,
      findOrCreateUser_found db sid u hu, handlePostback, hnotbuy, hyes,
      handlePayMpesa, hparse, hp, hact, if_true, hphone, pyTruthyStr]
  rw [hrun, hpidp, pyStrI_ofNat]
  refine ⟨rfl, ?_, rfl⟩
  have hex : ∃ x ∈ db.users, x.id = ({ u with pending_product_id := some pid } : UserR).id :=
    ⟨u, (mem_of_findBy hu).1, rfl⟩
  exact findUserById_updateUser db _ hex

/-- Witness for C6 at a concrete database. -/
theorem pay_mpesa_no_phone_prompt_witness :
    findUser { dbEmpty with users := [userW], products := [prodW] } "sid1" = some userW ∧
    findUserById (processRawEvent { sendOk := true, paymentLink := none }
        { dbEmpty with users := [userW], products := [prodW] }
        (postbackEvent "sid1" ("PAY_MPESA_" ++ pyStr 7))).1 userW.id =
      some { userW with pending_product_id := some 7 } :=
  ⟨by decide,
   (pay_mpesa_no_phone_prompt { sendOk := true, paymentLink := none }
      { dbEmpty with users := [userW], products := [prodW] } "sid1" 7 userW prodW
      (by decide) (by decide) (by decide) (by decide)).2.1⟩

/-! ## Claim C10 -/

/-- C10: a user who already has a stored phone number that normalizes
successfully and clicks PAY_MPESA_(id) for an active product gets the STK
push and the prompt-sent reply, and pending_product_id REMAINS set to the
product id afterwards (the postback path never clears it, unlike the
text-message path). -/
theorem pay_mpesa_keeps_pending (env : Env) (db : DB) (sid ph e164 : String)
    (pid : Nat) (u : UserR) (p : ProductR)
    (hu : findUser db sid = some u) (hphone : u.phone_number = some ph)
    (hnorm : normalize_kenyan_phone_to_e164 ph = some e164)
    (hp : findProductI db ((pid : Nat) : Int) = some p) (hact : p.is_active = true) :
    (processRawEvent env db (postbackEvent sid ("PAY_MPESA_" ++ pyStr pid))).2 =
      [Act.log u.id ("PAY_MPESA_" ++ pyStr pid) "user",
       Act.log u.id ("[BUTTON CLICK] Selected M-Pesa - Item " ++ pyStr pid) "bot",
       Act.stkPush e164 p.price (firstNameOf u.name) (lastNameOf u.name)
         (customerEmail sid) ("IG_" ++ sid ++ "_PRODUCT_" ++ pyStr pid),
       Act.log u.id promptSentText "bot",
       Act.sendMessage sid promptSentText] ∧
    findUserById (processRawEvent env db (postbackEvent sid ("PAY_MPESA_" ++ pyStr pid))).1 u.id =
      some { u with pending_product_id := some pid } := by
  have hparse : pyInt (pyStrip (pyReplace ("PAY_MPESA_" ++ pyStr pid) "PAY_MPESA_" "")) =
      some ((pid : Nat) : Int) :=
    parse_pipeline_roundtrip "PAY_MPESA_" pid 'P' ['A', 'Y', '_', 'M', 'P', 'E', 'S', 'A', '_']
      rfl (by decide)
  have hnotbuy : pyStartsWith ("PAY_MPESA_" ++ pyStr pid) "BUY_" = false := rfl
  have hyes : pyStartsWith ("PAY_MPESA_" ++ pyStr pid) "PAY_MPESA_" = true :=
    pyStartsWith_append _ _
  have hpidp : p.id = pid := by
    have := (mem_of_findBy hp).2
    exact_mod_cast this
  have hne : ph ≠ "" := by
    intro h
    rw [h] at hnorm
    exact Option.noConfusion hnorm
  have htr : pyTruthyStr (some ph) = true := by simp [pyTruthyStr, hne]
  have hrun : processRawEvent env db (postbackEvent sid ("PAY_MPESA_" ++ pyStr pid)) =
      (updateUser db { u with pending_product_id := some p.id },
       [Act.log u.id ("PAY_MPESA_" ++ pyStr pid) "user",
        Act.log u.id ("[BUTTON CLICK] Selected M-Pesa - Item " ++ pyStrI ((pid : Nat) : Int)) "bot",
        Act.stkPush e164 p.price (firstNameOf u.name) (lastNameOf u.name)
          (customerEmail sid) ("IG_" ++ sid ++ "_PRODUCT_" ++ pyStrI ((pid : Nat) : Int)),
        Act.log u.id promptSentText "bot",
        Act.sendMessage sid promptSentText]) := by
    simp only [processRawEvent, postbackEvent, Bool.or_self, Bool.false_eq_true, if_false,
      findOrCreateUser_found db sid u hu, handlePostback, hnotbuy, hyes,
      handlePayMpesa, hparse, hp, hact, if_true, hphone, htr, Bool.true_eq_false,
      Option.getD_some, hnorm]
  rw [hrun, hpidp, pyStrI_ofNat]
  refine ⟨rfl, ?_⟩
  exact findUserById_updateUser db _ ⟨u, (mem_of_findBy hu).1, rfl⟩

/-- A user row with a stored valid phone number. -/
def userPh : UserR := { userW with phone_number := some "0712345678" }

/-- Witness for C10 at a concrete database. -/
theorem pay_mpesa_keeps_pending_witness :
    normalize_kenyan_phone_to_e164 "0712345678" = some "+254712345678" ∧
    findUserById (processRawEvent { sendOk := true, paymentLink := none }
        { dbEmpty with users := [userPh], products := [prodW] }
        (postbackEvent "sid1" ("PAY_MPESA_" ++ pyStr 7))).1 userPh.id =
      some { userPh with pending_product_id := some 7 } :=
  ⟨by decide,
   (pay_mpesa_keeps_pending { sendOk := true, paymentLink := none }
      { dbEmpty with users := [userPh], products := [prodW] } "sid1" "0712345678"
      "+254712345678" 7 userPh prodW (by decide) (by decide) (by decide)
      (by decide) (by decide)).2⟩

/-! ## Claim C7 -/

/-- The Order row created by the PAY_CARD_ handler. -/
def newCardOrder (db : DB) (u : UserR) (p : ProductR) : OrderR :=
  { id := db.next_order_id, user_id := u.id, product_id := p.id,
    amount := p.price, status := "pending",
    payment_provider := some "pesapal", transaction_ref := none }

/-- Append a freshly created order and advance the autoincrement counter. -/
def dbWithNewOrder (db : DB) (o : OrderR) : DB :=
  { db with orders := db.orders ++ [o], next_order_id := db.next_order_id + 1 }

/-- C7: clicking PAY_CARD_(id) for an existing active product creates
exactly one new Order with provider pesapal and amount equal to the
current product price; its status is pending when the gateway returns a
payment link and failed when it does not, and in the failure case the
fixed apology message is sent. -/
theorem pay_card_order_creation (env : Env) (db : DB) (sid : String)
    (pid : Nat) (u : UserR) (p : ProductR)
    (hu : findUser db sid = some u)
    (hp : findProductI db ((pid : Nat) : Int) = some p) (hact : p.is_active = true)
    (hfresh : ∀ o ∈ db.orders, o.id ≠ db.next_order_id) :
    (processRawEvent env db (postbackEvent sid ("PAY_CARD_" ++ pyStr pid))).1.orders =
      db.orders ++
        [{ newCardOrder db u p with
           status := if env.paymentLink.isSome then "pending" else "failed" }] ∧
    (env.paymentLink = none →
      Act.sendMessage sid cardFailText ∈
        (processRawEvent env db (postbackEvent sid ("PAY_CARD_" ++ pyStr pid))).2) := by
  have hparse : pyInt (pyStrip (pyReplace ("PAY_CARD_" ++ pyStr pid) "PAY_CARD_" "")) =
      some ((pid : Nat) : Int) :=
    parse_pipeline_roundtrip "PAY_CARD_" pid 'P' ['A', 'Y', '_', 'C', 'A', 'R', 'D', '_']
      rfl (by decide)
  have hnotbuy : pyStartsWith ("PAY_CARD_" ++ pyStr pid) "BUY_" = false := rfl
  have hnotmp : pyStartsWith ("PAY_CARD_" ++ pyStr pid) "PAY_MPESA_" = false := rfl
  have hyes : pyStartsWith ("PAY_CARD_" ++ pyStr pid) "PAY_CARD_" = true :=
    pyStartsWith_append _ _
  rcases hlink : env.paymentLink with _ | link
  · have hrun : processRawEvent env db (postbackEvent sid ("PAY_CARD_" ++ pyStr pid)) =
        (updateOrder (dbWithNewOrder db (newCardOrder db u p))
          { newCardOrder db u p with status := "failed" },
         [Act.log u.id ("PAY_CARD_" ++ pyStr pid) "user",
          Act.log u.id ("[BUTTON CLICK] Selected Card - Item " ++ pyStrI ((pid : Nat) : Int)) "bot",
          Act.cardLinkRequest p.price ("ORDER_" ++ pyStr db.next_order_id)
            (customerEmail sid) (pyOrStr u.name ("Customer " ++ sid)) p.name,
          Act.log u.id cardFailText "bot",
          Act.sendMessage sid cardFailText]) := by
      simp only [processRawEvent, postbackEvent, Bool.or_self, Bool.false_eq_true, if_false,
        findOrCreateUser_found db sid u hu, handlePostback, hnotbuy, hnotmp, hyes,
        handlePayCard, hparse, hp, hact, if_true, hlink, newCardOrder, dbWithNewOrder,
        updateOrder]
    rw [hrun]
    constructor
    · show updBy (fun x => ((x.id : Nat) : Int))
        ((dbWithNewOrder db (newCardOrder db u p)).orders) _ = _
      show updBy (fun x => ((x.id : Nat) : Int)) (db.orders ++ [newCardOrder db u p]) _ = _
      rw [updBy_append_fresh (fun x => ((x.id : Nat) : Int)) db.orders (newCardOrder db u p)
        { newCardOrder db u p with status := "failed" }
        (fun x hx hcast => hfresh x hx (by simpa [newCardOrder] using hcast)) rfl]
      simp [hlink]
    · intro _
      simp
  · have hrun : processRawEvent env db (postbackEvent sid ("PAY_CARD_" ++ pyStr pid)) =
        (dbWithNewOrder db (newCardOrder db u p),
         [Act.log u.id ("PAY_CARD_" ++ pyStr pid) "user",
          Act.log u.id ("[BUTTON CLICK] Selected Card - Item " ++ pyStrI ((pid : Nat) : Int)) "bot",
          Act.cardLinkRequest p.price ("ORDER_" ++ pyStr db.next_order_id)
            (customerEmail sid) (pyOrStr u.name ("Customer " ++ sid)) p.name,
          Act.log u.id (cardResponseText p.price p.name ++ "\n\nPayment Link: " ++ link) "bot",
          Act.sendPaymentLinkButton sid link p.price p.name]) := by
      simp only [processRawEvent, postbackEvent, Bool.or_self, Bool.false_eq_true, if_false,
        findOrCreateUser_found db sid u hu, handlePostback, hnotbuy, hnotmp, hyes,
        handlePayCard, hparse, hp, hact, if_true, hlink, newCardOrder, dbWithNewOrder]
    rw [hrun]
    constructor
    · simp [dbWithNewOrder, hlink, newCardOrder]
    · intro hcontra
      exact Option.noConfusion hcontra

/-- Witness for C7 at a concrete database with no payment link. -/
theorem pay_card_order_creation_witness :
    (∀ o ∈ ({ dbEmpty with users := [userW], products := [prodW] } : DB).orders,
      o.id ≠ ({ dbEmpty with users := [userW], products := [prodW] } : DB).next_order_id) ∧
    (processRawEvent { sendOk := true, paymentLink := none }
        { dbEmpty with users := [userW], products := [prodW] }
        (postbackEvent "sid1" ("PAY_CARD_" ++ pyStr 7))).1.orders =
      [{ id := 1, user_id := 1, product_id := 7, amount := prodW.price,
         status := "failed", payment_provider := some "pesapal",
         transaction_ref := none }] :=
  ⟨by decide,
   by
    have h := (pay_card_order_creation { sendOk := true, paymentLink := none }
      { dbEmpty with users := [userW], products := [prodW] } "sid1" 7 userW prodW
      (by decide) (by decide) (by decide) (by decide)).1
    simpa [newCardOrder, dbEmpty, userW, prodW] using h⟩

/-! ## Claim C4 -/

/-- C4: a user with pending_product_id = 7 (product 7 active) who sends
the text 0712345678 gets the raw local number stored as phone_number, one
STK push with the normalized number +254712345678 and product 7 price,
pending_product_id cleared to none, and the fixed prompt-sent reply. -/
theorem phone_capture_pending_flow (env : Env) (db : DB) (sid : String)
    (u : UserR) (p : ProductR)
    (hu : findUser db sid = some u) (hpend : u.pending_product_id = some 7)
    (hp : findProductN db 7 = some p) (hact : p.is_active = true) :
    (processRawEvent env db (textEvent sid "0712345678")).2 =
      [Act.log u.id "0712345678" "user",
       Act.stkPush "+254712345678" p.price (firstNameOf u.name) (lastNameOf u.name)
         (customerEmail sid) ("IG_" ++ sid ++ "_PRODUCT_" ++ pyStr 7),
       Act.sendMessage sid promptSentText] ∧
    findUserById (processRawEvent env db (textEvent sid "0712345678")).1 u.id =
      some { u with phone_number := some "0712345678", pending_product_id := none } := by
  have hne : (("0712345678" : String) = "") ↔ False := iff_false_intro (by decide)
  have hkm : kenyanMatch ("0712345678" : String) = true := rfl
  have hnorm : normalize_kenyan_phone_to_e164 "0712345678" = some "+254712345678" := rfl
  have hlow : pyLower (pyStrip "0712345678") = "0712345678" := rfl
  have hpt : pyTruthyNat (some 7) = true := rfl
  have hrun : processRawEvent env db (textEvent sid "0712345678") =
      (updateUser (updateUser db { u with phone_number := some "0712345678" })
        { u with phone_number := some "0712345678", pending_product_id := none },
       [Act.log u.id "0712345678" "user",
        Act.stkPush "+254712345678" p.price (firstNameOf u.name) (lastNameOf u.name)
          (customerEmail sid) ("IG_" ++ sid ++ "_PRODUCT_" ++ pyStr 7),
        Act.sendMessage sid promptSentText]) := by
    simp only [processRawEvent, textEvent, Bool.or_self, Bool.false_eq_true, if_false,
      findOrCreateUser_found db sid u hu, hne, handleText, hlow, hkm, if_true, hnorm,
      hpend, hpt, Option.getD_some, findProductN_updateUser, hp, hact]
  rw [hrun]
  refine ⟨rfl, ?_⟩
  rw [updateUser_updateUser db { u with phone_number := some "0712345678" }
    { u with phone_number := some "0712345678", pending_product_id := none } rfl]
  exact findUserById_updateUser db _ ⟨u, (mem_of_findBy hu).1, rfl⟩

/-- A user row with pending_product_id 7. -/
def userPend : UserR := { userW with pending_product_id := some 7 }

/-- Witness for C4 at a concrete database. -/
theorem phone_capture_pending_flow_witness :
    findUser { dbEmpty with users := [userPend], products := [prodW] } "sid1" =
      some userPend ∧
    (processRawEvent { sendOk := true, paymentLink := none }
        { dbEmpty with users := [userPend], products := [prodW] }
        (textEvent "sid1" "0712345678")).2 =
      [Act.log userPend.id "0712345678" "user",
       Act.stkPush "+254712345678" prodW.price (firstNameOf userPend.name)
         (lastNameOf userPend.name) (customerEmail "sid1")
         ("IG_" ++ "sid1" ++ "_PRODUCT_" ++ pyStr 7),
       Act.sendMessage "sid1" promptSentText] :=
  ⟨by decide,
   (phone_capture_pending_flow { sendOk := true, paymentLink := none }
      { dbEmpty with users := [userPend], products := [prodW] } "sid1" userPend prodW
      (by decide) (by decide) (by decide) (by decide)).1⟩

/-! ## Claim C8 (corrected) -/

/-- Counterexample to C8 as stated: a postback with a malformed product id
(BUY_x) makes the dispatcher send the fixed apology message, and the
whole event trace contains no bot-sender ConversationLog entry at all. -/
theorem sends_logged_counterexample :
    claimSendsLogged (processRawEvent { sendOk := true, paymentLink := none }
      dbEmpty (postbackEvent "sid1" "BUY_x")).2 = false := by decide

theorem okSends_postback (env : Env) (db : DB) (user : UserR) (sid payload : String)
    (hok : env.sendOk = true) :
    okSends (handlePostback env db user sid payload).2 = true := by
  simp only [handlePostback, handleBuy, handlePayMpesa, handlePayCard, handleShowroom]
  repeat' split
  all_goals simp_all [okSends, okSendsAux, isMsgSend, isBotLog, isExcusedSend,
    headIsBotLog, unloggedSendTexts, errApologyText, validNumText, itemGoneText,
    promptSentText, thanksSavedText]

theorem okSends_text (env : Env) (db : DB) (user : UserR) (sid text : String)
    (hok : env.sendOk = true) :
    okSendsAux false (handleText env db user sid text).2 = true := by
  simp only [handleText, handleShowroom]
  repeat' split
  all_goals simp_all [okSendsAux, isMsgSend, isBotLog, isExcusedSend,
    headIsBotLog, unloggedSendTexts, errApologyText, validNumText, itemGoneText,
    promptSentText, thanksSavedText]

/-- C8 amended: assuming the messaging platform accepts every send, every
outbound send in an event trace is immediately preceded or followed by a
bot-sender ConversationLog entry, except sends of five fixed texts that
the code emits without logging: the generic apology for malformed
postback ids, the invalid-number re-prompt, the item-no-longer-available
notice of the phone-capture path, the prompt-sent confirmation, and the
number-saved acknowledgement. -/
theorem sends_logged_amended (env : Env) (db : DB) (e : RawEvent)
    (hok : env.sendOk = true) :
    okSends (processRawEvent env db e).2 = true := by
  obtain ⟨hd, hr, sender, pb, msg⟩ := e
  unfold processRawEvent
  cases hd
  · cases hr
    · simp only [Bool.or_self, Bool.false_eq_true, if_false]
      rcases sender with _ | sid
      · simp [okSends, okSendsAux]
      · simp only []
        rcases pb with _ | payload
        · rcases msg with _ | m
          · simp [okSends, okSendsAux]
          · obtain ⟨echo, mtext⟩ := m
            cases echo
            · simp only [Bool.false_eq_true, if_false]
              rcases mtext with _ | t
              · simp [okSends, okSendsAux]
              · simp only []
                split
                · simp [okSends, okSendsAux]
                · exact okSends_text env _ _ sid t hok
            · simp [okSends, okSendsAux]
        · exact okSends_postback env _ _ sid payload hok
    · simp [okSends, okSendsAux]
  · simp [okSends, okSendsAux]

/-- Witness for the amended C8 at a concrete event. -/
theorem sends_logged_amended_witness :
    ({ sendOk := true, paymentLink := none } : Env).sendOk = true ∧
    okSends (processRawEvent { sendOk := true, paymentLink := none } dbEmpty
      (postbackEvent "sid1" "BUY_x")).2 = true :=
  ⟨rfl,
   sends_logged_amended { sendOk := true, paymentLink := none } dbEmpty
     (postbackEvent "sid1" "BUY_x") rfl⟩
